import Mathlib

set_option maxRecDepth 1000000

/-!
Verification of the SRP-6a library (github.com/johandroz/srp) against its
natural-language specification.

The development shallowly embeds the library in Lean 4:

* Big integers (`math/big.Int`) are `Nat` (all SRP values are nonnegative);
  nilable `*big.Int` pointers are `Option Nat`.
* Byte strings (`[]byte`, hash digests) are `List Nat`, one `Nat` in `[0, 256)`
  per byte; Go strings crossing the API (identity, password) are modelled by
  their byte lists.
* The pluggable hash (`func() hash.Hash`) is a pure function
  `List Nat → List Nat`; SHA-1 (FIPS 180) is implemented executably below for
  the RFC 5054 test vector.
* `time.Time` and `time.Duration` are `Int` (nanoseconds); Go's
  `now.After(lastActivity.Add(timeout))` is the strict comparison
  `lastActivity + timeout < now`.
* The storage backend `storage.Backend` is modelled per step invocation by
  `BackendIO` (the results the backend would return), and every step also
  returns the list of backend calls it issued (`List Op`), so propagation and
  non-mutation claims can be stated.
* Go fallible functions returning `(T, error)` become `Except String T`;
  a run-time panic (nil-pointer dereference) is the `GoResult.crash`
  constructor.

The SRP math kernel (`srp.go`: `computeMultiplier`, `computeVerifier`, …,
`isValidPublicValue`) is not part of the provided sources (only its tests and
callers are), so those functions are modelled from the specification, §4.1;
each such definition carries a doc comment starting `Modelled from the spec:`.
The client, server and verifier state machines are embedded from the provided
sources (`client.go`, `server.go`, `verifier.go`).
-/

/-! ## Byte-level utilities -/

/-- Big-endian interpretation of a byte list as a natural number
(Go: `big.Int.SetBytes`). -/
def fromBytes (bs : List Nat) : Nat := bs.foldl (fun acc bb => acc * 256 + bb) 0

/-- Fuelled big-endian serialisation; the fuel only bounds the recursion depth
so that the kernel can evaluate the function. -/
def toBytesAux : Nat → Nat → List Nat
  | 0, _ => []
  | f+1, n => if n = 0 then [] else toBytesAux f (n / 256) ++ [n % 256]

/-- Minimal big-endian byte representation of a natural number, empty for 0
(Go: `big.Int.Bytes`).  Fuel 2048 covers every integer below `2 ^ 16384`,
in particular all members of every RFC 5054 group (largest: 8192 bits). -/
def natBytes (n : Nat) : List Nat := toBytesAux 2048 n

/-- Fuelled byte-length computation. -/
def byteLenAux : Nat → Nat → Nat
  | 0, _ => 0
  | f+1, n => if n = 0 then 0 else byteLenAux f (n / 256) + 1

/-- Number of bytes in the minimal representation of `n`
(Go: `(N.BitLen()+7)/8`). -/
def byteLen (n : Nat) : Nat := byteLenAux 2048 n

/-- `PAD`: big-endian representation of `x`, left-zero-padded to `len` bytes
(spec §4.1 / glossary). -/
def padBytes (len x : Nat) : List Nat :=
  List.replicate (len - (natBytes x).length) 0 ++ natBytes x

/-! ## SHA-1 (FIPS 180), executable

Modelled for the test-vector claims: the spec fixes the hash of the RFC 5054
vector to SHA-1.  Words are `Nat` reduced modulo `2 ^ 32`. -/

/-- Left-rotation of a 32-bit word. -/
def rotl (n x : Nat) : Nat := ((x <<< n) ||| (x >>> (32 - n))) % 4294967296

/-- The SHA-1 round function `f_t`. -/
def sha1F (t bb c d : Nat) : Nat :=
  if t < 20 then (bb &&& c) ||| ((4294967295 ^^^ bb) &&& d)
  else if t < 40 then bb ^^^ c ^^^ d
  else if t < 60 then (bb &&& c) ||| (bb &&& d) ||| (c &&& d)
  else bb ^^^ c ^^^ d

/-- The SHA-1 round constant `K_t`. -/
def sha1K (t : Nat) : Nat :=
  if t < 20 then 0x5A827999
  else if t < 40 then 0x6ED9EBA1
  else if t < 60 then 0x8F1BBCDC
  else 0xCA62C1D6

/-- Next word of the message schedule, from the sliding window
`[w_t, …, w_(t+15)]`: `w_(t+16) = rotl1 (w_(t+13) ⊕ w_(t+8) ⊕ w_(t+2) ⊕ w_t)`. -/
def sha1Next (w : List Nat) : Nat :=
  rotl 1 (w.getD 13 0 ^^^ w.getD 8 0 ^^^ w.getD 2 0 ^^^ w.getD 0 0)

/-- The 80 SHA-1 rounds; `w` is the schedule window whose head is the current
word `w_t`. -/
def sha1Rounds : Nat → Nat → List Nat → Nat × Nat × Nat × Nat × Nat →
    Nat × Nat × Nat × Nat × Nat
  | 0, _, _, st => st
  | f+1, t, w, (a, bb, c, d, e) =>
    let temp := (rotl 5 a + sha1F t bb c d + e + sha1K t + w.headD 0) % 4294967296
    sha1Rounds f (t+1) (w.tail ++ [sha1Next w]) (temp, a, rotl 30 bb, c, d)

/-- Big-endian packing of bytes into 32-bit words. -/
def toWords : Nat → List Nat → List Nat
  | 0, _ => []
  | f+1, b0 :: b1 :: b2 :: b3 :: rest =>
      (b0 * 16777216 + b1 * 65536 + b2 * 256 + b3) :: toWords f rest
  | _+1, _ => []

/-- One SHA-1 compression step over a 64-byte block. -/
def sha1Compress (st : Nat × Nat × Nat × Nat × Nat) (block : List Nat) :
    Nat × Nat × Nat × Nat × Nat :=
  match st with
  | (h0, h1, h2, h3, h4) =>
    match sha1Rounds 80 0 (toWords 16 block) st with
    | (a, bb, c, d, e) =>
      ((h0 + a) % 4294967296, (h1 + bb) % 4294967296, (h2 + c) % 4294967296,
       (h3 + d) % 4294967296, (h4 + e) % 4294967296)

/-- Fold the compression function over consecutive 64-byte blocks. -/
def sha1Blocks : Nat → Nat × Nat × Nat × Nat × Nat → List Nat →
    Nat × Nat × Nat × Nat × Nat
  | 0, st, _ => st
  | _+1, st, [] => st
  | f+1, st, bytes => sha1Blocks f (sha1Compress st (bytes.take 64)) (bytes.drop 64)

/-- 8-byte big-endian encoding of the bit length. -/
def be64 (n : Nat) : List Nat :=
  [(n >>> 56) % 256, (n >>> 48) % 256, (n >>> 40) % 256, (n >>> 32) % 256,
   (n >>> 24) % 256, (n >>> 16) % 256, (n >>> 8) % 256, n % 256]

/-- 4-byte big-endian encoding of a 32-bit word. -/
def wordBytes (w : Nat) : List Nat :=
  [(w >>> 24) % 256, (w >>> 16) % 256, (w >>> 8) % 256, w % 256]

/-- SHA-1 of a byte list: pad to a multiple of 64 bytes (`0x80`, zeros, 64-bit
bit length) and run the compression rounds. -/
def sha1 (msg : List Nat) : List Nat :=
  let l := msg.length
  let padded := msg ++ [128] ++ List.replicate ((119 - l % 64) % 64) 0 ++ be64 (l * 8)
  match sha1Blocks (padded.length / 64 + 1)
      (0x67452301, 0xEFCDAB89, 0x98BADCFE, 0x10325476, 0xC3D2E1F0) padded with
  | (h0, h1, h2, h3, h4) =>
    wordBytes h0 ++ wordBytes h1 ++ wordBytes h2 ++ wordBytes h3 ++ wordBytes h4

/-! ## Modular exponentiation

The math kernel below uses the mathematical specification `b ^ e % n` of Go's
`big.Int.Exp`.  `powModAux` is a fuelled square-and-multiply evaluator which
the kernel can execute; `powModAux_eq` lets concrete claims about `b ^ e % n`
with very large `e` be decided.  Its bound hypothesis is phrased with the
right-shift `e >>> f = 0` (equivalently `e < 2 ^ f`) because the kernel
evaluates shifts but not powers of large numbers. -/

/-- Fuelled square-and-multiply modular exponentiation. -/
def powModAux : Nat → Nat → Nat → Nat → Nat
  | 0, _, _, n => 1 % n
  | f+1, bb, e, n =>
    if e = 0 then 1 % n
    else
      let r := powModAux f (bb * bb % n) (e / 2) n
      if e % 2 = 1 then r * bb % n else r

theorem powModAux_eq : ∀ (f bb e n : Nat), e >>> f = 0 → powModAux f bb e n = bb ^ e % n := by
  have key : ∀ (f bb e n : Nat), e < 2 ^ f → powModAux f bb e n = bb ^ e % n := by
    intro f
    induction f with
    | zero =>
      intro bb e n h
      have he : e = 0 := Nat.lt_one_iff.mp (by simpa using h)
      subst he
      simp [powModAux]
    | succ f ih =>
      intro bb e n h
      by_cases he : e = 0
      · subst he
        simp [powModAux]
      · have h2 : e / 2 < 2 ^ f := by
          have hlt : e < 2 ^ f * 2 := by
            have h' := h
            rw [pow_succ] at h'
            exact h'
          exact (Nat.div_lt_iff_lt_mul (by norm_num)).mpr hlt
        have hrec := ih (bb * bb % n) (e / 2) n h2
        have hsq : (bb * bb % n) ^ (e / 2) % n = bb ^ (2 * (e / 2)) % n := by
          rw [← Nat.pow_mod, two_mul, pow_add, mul_pow]
        by_cases ho : e % 2 = 1
        · have hsplit : bb ^ (2 * (e / 2)) * bb = bb ^ e := by
            conv_rhs => rw [← Nat.div_add_mod e 2, ho]
            rw [pow_add, pow_one]
          simp only [powModAux, he, if_false, ho, if_true]
          rw [hrec, hsq, Nat.mod_mul_mod, hsplit]
        · have he2 : e = 2 * (e / 2) := by omega
          simp only [powModAux, he, if_false, ho, if_false]
          rw [hrec, hsq, ← he2]
  intro f bb e n h
  refine key f bb e n ?_
  have hd : e / 2 ^ f = 0 := by
    rw [← Nat.shiftRight_eq_div_pow]
    exact h
  exact (Nat.div_eq_zero_iff (by positivity : 0 < 2 ^ f)).mp hd

/-! ## SRP math kernel

The file `srp.go` holding these functions is not among the provided sources
(only its tests in `srp_test.go` and its callers are), so each function is
modelled from the specification, §4.1, with the argument orders used by the
callers and by `TestWithVector`. -/

/-- The type of the pluggable password-hash variants (Go `funcX`). -/
def FuncX : Type := (List Nat → List Nat) → List Nat → List Nat → List Nat → Nat

/-- Modelled from the spec: multiplier `k = H(N ‖ PAD(g))`, taken modulo `N`
(§4.1 "Multiplier"; `srp.go` is missing from the sources). -/
def computeMultiplier (fH : List Nat → List Nat) (N g : Nat) : Nat :=
  fromBytes (fH (natBytes N ++ padBytes (byteLen N) g)) % N

/-- Modelled from the spec: `X_with_username`, `x = H(s ‖ H(I ‖ ":" ‖ P))`
(§3; `srp.go` is missing from the sources).  `58` is the byte of `":"`. -/
def computeXWithUsername : FuncX := fun fH s I P =>
  fromBytes (fH (s ++ fH (I ++ [58] ++ P)))

/-- Modelled from the spec: `X_without_username`, `x = H(s ‖ H(P))`
(§3; `srp.go` is missing from the sources). -/
def computeXWithoutUsername : FuncX := fun fH s _ P =>
  fromBytes (fH (s ++ fH P))

/-- Modelled from the spec: verifier `v = g^x mod N` (§4.1; `srp.go` is
missing from the sources). -/
def computeVerifier (N g x : Nat) : Nat := g ^ x % N

/-- Modelled from the spec: public client value `A = g^a mod N` (§4.1;
`srp.go` is missing from the sources). -/
def computePublicClientValue (N g a : Nat) : Nat := g ^ a % N

/-- Modelled from the spec: public server value `B = (k·v + g^b mod N) mod N`
(§4.1; `srp.go` is missing from the sources). -/
def computePublicServerValue (N g k v bb : Nat) : Nat := (k * v + g ^ bb % N) % N

/-- Modelled from the spec: scrambling parameter `u = H(PAD(A) ‖ PAD(B))`,
not reduced modulo `N` (§4.1; `srp.go` is missing from the sources). -/
def computeScramblingParameter (fH : List Nat → List Nat) (N A B : Nat) : Nat :=
  fromBytes (fH (padBytes (byteLen N) A ++ padBytes (byteLen N) B))

/-- Modelled from the spec: client session key
`S = (B − k·g^x mod N)^(a + u·x) mod N`, the subtraction performed modulo `N`
so the base is in `[0, N)` (§4.1; `srp.go` is missing from the sources). -/
def computeClientSessionKey (N g k x u a B : Nat) : Nat :=
  let base : Int := ((B : Int) - ((k * (g ^ x % N) : Nat) : Int)) % (N : Int)
  base.toNat ^ (a + u * x) % N

/-- Modelled from the spec: server session key `S = (A · v^u mod N)^b mod N`
(§4.1; `srp.go` is missing from the sources). -/
def computeServerSessionKey (N v u A bb : Nat) : Nat :=
  (A * (v ^ u % N) % N) ^ bb % N

/-- Modelled from the spec: client evidence `M1 = H(A ‖ B ‖ S)` over unpadded
big-endian representations (§4.1; `srp.go` is missing from the sources). -/
def computeClientEvidence (fH : List Nat → List Nat) (A B S : Nat) : Nat :=
  fromBytes (fH (natBytes A ++ natBytes B ++ natBytes S))

/-- Modelled from the spec: server evidence `M2 = H(A ‖ M1 ‖ S)` over unpadded
big-endian representations (§4.1; `srp.go` is missing from the sources). -/
def computeServerEvidence (fH : List Nat → List Nat) (A M1 S : Nat) : Nat :=
  fromBytes (fH (natBytes A ++ natBytes M1 ++ natBytes S))

/-- Modelled from the spec: `isValidPublicValue(N, X) ≡ X mod N ≠ 0` (§4.1);
a nil public value is invalid (the step tests feed `nil` and expect an error;
`srp.go` is missing from the sources). -/
def isValidPublicValue (N : Nat) : Option Nat → Bool
  | none => false
  | some x => decide (¬ (x % N = 0))

/-! ## RFC 5054 1024-bit test vector (srp_test.go lines 11–28, spec §8) -/

/-- The 1024-bit prime `N` of the rfc-1024 group. -/
def tvN : Nat := 0xEEAF0AB9ADB38DD69C33F80AFA8FC5E86072618775FF3C0B9EA2314C9C256576D674DF7496EA81D3383B4813D692C6E0E0D5D8E250B98BE48E495C1D6089DAD15DC7D7B46154D6B6CE8EF4AD69B15D4982559B297BCF1885C529F566660E57EC68EDBC3C05726CC02FD4CBF4976EAA9AFD5138FE8376435B9FC61D2FC0EB06E3

/-- The salt `s` of the test vector, as bytes (Go: `salt.Bytes()`). -/
def tvSalt : List Nat := natBytes 0xBEB25379D1A8581EB5A727673A2441EE

/-- The identity `"alice"` as bytes. -/
def tvI : List Nat := [97, 108, 105, 99, 101]

/-- The password `"password123"` as bytes. -/
def tvP : List Nat := [112, 97, 115, 115, 119, 111, 114, 100, 49, 50, 51]

/-- Expected multiplier `k`. -/
def tvk : Nat := 0x7556AA045AEF2CDD07ABAF0F665C3E818913186F

/-- Expected password hash `x` (with username). -/
def tvx : Nat := 0x94B7555AABE9127CC58CCF4993DB6CF84D16C124

/-- Expected verifier `v`. -/
def tvv : Nat := 0x7E273DE8696FFC4F4E337D05B4B375BEB0DDE1569E8FA00A9886D8129BADA1F1822223CA1A605B530E379BA4729FDC59F105B4787E5186F5C671085A1447B52A48CF1970B4FB6F8400BBF4CEBFBB168152E08AB5EA53D15C1AFF87B2B9DA6E04E058AD51CC72BFC9033B564E26480D78E955A5E29E7AB245DB2BE315E2099AFB

/-- The listed private client value `a`. -/
def tva : Nat := 0x60975527035CF2AD1989806F0407210BC81EDC04E2762A56AFD529DDDA2D4393

/-- The listed private server value `b`. -/
def tvb : Nat := 0xE487CB59D31AC550471E81F00F6928E01DDA08E974A004F49E61F5D105284D20

/-- Expected public client value `A`. -/
def tvA : Nat := 0x61D5E490F6F1B79547B0704C436F523DD0E560F0C64115BB72557EC44352E8903211C04692272D8B2D1A5358A2CF1B6E0BFCF99F921530EC8E39356179EAE45E42BA92AEACED825171E1E8B9AF6D9C03E1327F44BE087EF06530E69F66615261EEF54073CA11CF5858F0EDFDFE15EFEAB349EF5D76988A3672FAC47B0769447B

/-- Expected public server value `B`. -/
def tvB : Nat := 0xBD0C61512C692C0CB6D041FA01BB152D4916A1E77AF46AE105393011BAF38964DC46A0670DD125B95A981652236F99D9B681CBF87837EC996C6DA04453728610D0C6DDB58B318885D7D82C7F8DEB75CE7BD4FBAA37089E6F9C6059F388838E7A00030B331EB76840910440B1B27AAEAEEB4012B7D7665238A8E3FB004B117B58

/-- Expected scrambling parameter `u`. -/
def tvu : Nat := 0xCE38B9593487DA98554ED47D70A7AE5F462EF019

/-- Expected premaster secret `S`. -/
def tvS : Nat := 0xB0DC82BABCF30674AE450C0287745E7990A3381F63B387AAF271A10D233861E359B48220F7C4693C9AE12B0A6F67809F0876E2D013800D6C41BB59B6D5979B5C00A172B4A2A5903A0BDCAF8A709585EB2AFAFA8F3499B200210DCC1F10EB33943CD67FC88A2F39A4BE5BEC4EC0A3212DC346D7E474B29EDE8A469FFECA686E5A

/-- Expected client evidence `M1`. -/
def tvM1 : Nat := 0xB46A783846B7E569FF8F9B44AB8D88EDEB085A65

/-- Expected server evidence `M2`. -/
def tvM2 : Nat := 0xB0A6AD3024E79B5CAD04042ABB3A3F592D20C17

/-- Intermediate for the session-key proofs: `v^u mod N`. -/
def tvVU : Nat := 0x193ec79518f5cb28ea0af87553b5f9746d4463a3310e8903a226b2311b18f012502fd289e3eb0d10bc62b8a876578d88dda7c974fe0bc6bc1fee35d5094f450bc5aeb94672d267194fb7c19dd4da3b0e4a2c43323d2001abc0437b91cc155a19cfe9d85a1ede80690121d3382238a32ba75ef9c6df6aa204a72923362840413a

/-- Intermediate for the client-session-key proof: the base
`(B − k·g^x) mod N` (which equals `g^b mod N`). -/
def tvBase : Nat := 0xc04234afe80c155cf2fbb1873555d1ef9a934fa578712a3d47fe3c171b7c2f66079ea008ddfbd9d9f4ddfdd2ca52e28863fb492bb7b5f5943b6f62662b264b3fb0a82535fa7ee7a7da7f9d07c641f61fecb37020f1bbb93f93c81959d84613ca858312ff46e9196fa42dda5168fa59167f94e2cde621c19ce8f842bf63bb8323

/-- Evaluation rule for `computeVerifier`, reducing it to the fuelled
evaluator; stated over variables so that instantiating it at literals needs no
kernel computation of `^`. -/
theorem computeVerifier_eval (N g x f r : Nat) (h1 : x >>> f = 0)
    (h2 : powModAux f g x N = r) : computeVerifier N g x = r := by
  unfold computeVerifier
  rw [← powModAux_eq f g x N h1]
  exact h2

/-- Evaluation rule for `computePublicClientValue`. -/
theorem computePublicClientValue_eval (N g a f r : Nat) (h1 : a >>> f = 0)
    (h2 : powModAux f g a N = r) : computePublicClientValue N g a = r := by
  unfold computePublicClientValue
  rw [← powModAux_eq f g a N h1]
  exact h2

/-- Evaluation rule for `computePublicServerValue`. -/
theorem computePublicServerValue_eval (N g k v bb f gb r : Nat) (h1 : bb >>> f = 0)
    (h2 : powModAux f g bb N = gb) (h3 : (k * v + gb) % N = r) :
    computePublicServerValue N g k v bb = r := by
  unfold computePublicServerValue
  rw [← powModAux_eq f g bb N h1, h2]
  exact h3

/-- Evaluation rule for `computeClientSessionKey`. -/
theorem computeClientSessionKey_eval (N g k x u a B fx fe gx base r : Nat)
    (hx1 : x >>> fx = 0) (hx2 : powModAux fx g x N = gx)
    (hb : (((B : Int) - ((k * gx : Nat) : Int)) % (N : Int)).toNat = base)
    (he1 : (a + u * x) >>> fe = 0) (he2 : powModAux fe base (a + u * x) N = r) :
    computeClientSessionKey N g k x u a B = r := by
  unfold computeClientSessionKey
  dsimp only
  rw [← powModAux_eq fx g x N hx1, hx2, hb, ← powModAux_eq fe base (a + u * x) N he1]
  exact he2

/-- Evaluation rule for `computeServerSessionKey`. -/
theorem computeServerSessionKey_eval (N v u A bb fu fb vu r : Nat)
    (hu1 : u >>> fu = 0) (hu2 : powModAux fu v u N = vu)
    (hb1 : bb >>> fb = 0) (hb2 : powModAux fb (A * vu % N) bb N = r) :
    computeServerSessionKey N v u A bb = r := by
  unfold computeServerSessionKey
  rw [← powModAux_eq fu v u N hu1, hu2, ← powModAux_eq fb (A * vu % N) bb N hb1]
  exact hb2

/-- Test-vector evaluation: the multiplier. -/
theorem tv_multiplier : computeMultiplier sha1 tvN 2 = tvk := by decide

/-- Test-vector evaluation: `x` with username. -/
theorem tv_x : computeXWithUsername sha1 tvSalt tvI tvP = tvx := by decide

/-- Test-vector evaluation: the verifier. -/
theorem tv_v : computeVerifier tvN 2 tvx = tvv :=
  computeVerifier_eval tvN 2 tvx 200 tvv (by decide) (by decide)

/-- Test-vector evaluation: the public client value. -/
theorem tv_A : computePublicClientValue tvN 2 tva = tvA :=
  computePublicClientValue_eval tvN 2 tva 300 tvA (by decide) (by decide)

/-- Test-vector evaluation: the public server value. -/
theorem tv_B : computePublicServerValue tvN 2 tvk tvv tvb = tvB :=
  computePublicServerValue_eval tvN 2 tvk tvv tvb 300 tvBase tvB (by decide) (by decide)
    (by decide)

/-- Test-vector evaluation: the scrambling parameter. -/
theorem tv_u : computeScramblingParameter sha1 tvN tvA tvB = tvu := by decide

/-- Test-vector evaluation: the client session key. -/
theorem tv_Sclient : computeClientSessionKey tvN 2 tvk tvx tvu tva tvB = tvS :=
  computeClientSessionKey_eval tvN 2 tvk tvx tvu tva tvB 200 340 tvv tvBase tvS
    (by decide) (by decide) (by decide) (by decide) (by decide)

/-- Test-vector evaluation: the server session key. -/
theorem tv_Sserver : computeServerSessionKey tvN tvv tvu tvA tvb = tvS :=
  computeServerSessionKey_eval tvN tvv tvu tvA tvb 200 300 tvVU tvS
    (by decide) (by decide) (by decide) (by decide)

/-- Test-vector evaluation: the client evidence. -/
theorem tv_M1 : computeClientEvidence sha1 tvA tvB tvS = tvM1 := by decide

/-- Test-vector evaluation: the server evidence. -/
theorem tv_M2 : computeServerEvidence sha1 tvA tvM1 tvS = tvM2 := by decide

/-- Claim C1: with the rfc-1024 group, SHA-1 and the `X_with_username`
variant, the math kernel reproduces the RFC 5054 test vector: on the listed
salt, identity, password and private values, `computeMultiplier`,
`computeXWithUsername`, `computeVerifier`, `computePublicClientValue`,
`computePublicServerValue`, `computeScramblingParameter`,
`computeClientSessionKey`, `computeServerSessionKey`, `computeClientEvidence`
and `computeServerEvidence` return exactly the listed `k`, `x`, `v`, `A`, `B`,
`u`, `S`, `M1` and `M2`. -/
theorem claim_C1 :
    computeMultiplier sha1 tvN 2 = tvk ∧
    computeXWithUsername sha1 tvSalt tvI tvP = tvx ∧
    computeVerifier tvN 2 tvx = tvv ∧
    computePublicClientValue tvN 2 tva = tvA ∧
    computePublicServerValue tvN 2 tvk tvv tvb = tvB ∧
    computeScramblingParameter sha1 tvN tvA tvB = tvu ∧
    computeClientSessionKey tvN 2 tvk tvx tvu tva tvB = tvS ∧
    computeServerSessionKey tvN tvv tvu tvA tvb = tvS ∧
    computeClientEvidence sha1 tvA tvB tvS = tvM1 ∧
    computeServerEvidence sha1 tvA tvM1 tvS = tvM2 :=
  ⟨tv_multiplier, tv_x, tv_v, tv_A, tv_B, tv_u, tv_Sclient, tv_Sserver, tv_M1, tv_M2⟩

/-! ## Claim C2: client and server session keys agree -/

/-- Core algebraic fact: for any multiplier `k`, scrambling parameter `u`,
password hash `x` and private values `a`, `b`, if the verifier is
`g^x mod N` then the client and the server session keys coincide. -/
theorem sessionKeys_eq (N g k x u a b : Nat) (hN : 0 < N) :
    computeClientSessionKey N g k x u a
      (computePublicServerValue N g k (computeVerifier N g x) b)
    = computeServerSessionKey N (computeVerifier N g x) u
        (computePublicClientValue N g a) b := by
  unfold computeClientSessionKey computeServerSessionKey computePublicServerValue
    computeVerifier computePublicClientValue
  dsimp only
  rw [← ZMod.natCast_eq_natCast_iff' _ _ N]
  have hNz : (N : Int) ≠ 0 := by exact_mod_cast hN.ne'
  push_cast [ZMod.natCast_mod, ZMod.intCast_mod]
  have hbase : ∀ z : Int, (((z % (N : Int)).toNat : ZMod N)) = (z : ZMod N) := by
    intro z
    have h1 : ((z % (N : Int)).toNat : Int) = z % (N : Int) :=
      Int.toNat_of_nonneg (Int.emod_nonneg z hNz)
    calc ((z % (N : Int)).toNat : ZMod N)
        = (((z % (N : Int)).toNat : Int) : ZMod N) := by push_cast; ring
      _ = ((z % (N : Int) : Int) : ZMod N) := by rw [h1]
      _ = (z : ZMod N) := ZMod.intCast_mod z N
  rw [hbase]
  push_cast [ZMod.natCast_mod]
  ring

/-- Claim C2: for every group `(N, g)` with prime `N`, every hash `fH`, every
X-variant `fX`, every salt / identity / password, and all private values
`a, b ∈ [1, N-1]`: with the verifier derived from the same inputs, the client
session key (computed from `N, g, k, x, u, a, B`) equals the server session
key (computed from `N, v, u, A, b`), where `A`, `B`, `k`, `u` are the
kernel's public values, multiplier and scrambling parameter. -/
theorem claim_C2 (N g : Nat) (hN : Nat.Prime N) (fH : List Nat → List Nat)
    (fX : FuncX) (s I P : List Nat) (a b : Nat)
    (ha : 1 ≤ a ∧ a ≤ N - 1) (hb : 1 ≤ b ∧ b ≤ N - 1) :
    computeClientSessionKey N g (computeMultiplier fH N g) (fX fH s I P)
      (computeScramblingParameter fH N
        (computePublicClientValue N g a)
        (computePublicServerValue N g (computeMultiplier fH N g)
          (computeVerifier N g (fX fH s I P)) b))
      a
      (computePublicServerValue N g (computeMultiplier fH N g)
        (computeVerifier N g (fX fH s I P)) b)
    = computeServerSessionKey N (computeVerifier N g (fX fH s I P))
        (computeScramblingParameter fH N
          (computePublicClientValue N g a)
          (computePublicServerValue N g (computeMultiplier fH N g)
            (computeVerifier N g (fX fH s I P)) b))
        (computePublicClientValue N g a) b :=
  sessionKeys_eq N g (computeMultiplier fH N g) (fX fH s I P)
    (computeScramblingParameter fH N (computePublicClientValue N g a)
      (computePublicServerValue N g (computeMultiplier fH N g)
        (computeVerifier N g (fX fH s I P)) b)) a b hN.pos

/-- A trivial constant hash used to instantiate hyperproperty claims. -/
def wHash : List Nat → List Nat := fun _ => [1]

/-- Witness for claim C2, at `N = 7`, `g = 3`, `a = 2`, `b = 3`, empty salt,
identity and password, with a constant hash. -/
theorem claim_C2_witness :
    (1 ≤ 2 ∧ 2 ≤ 7 - 1) ∧ (1 ≤ 3 ∧ 3 ≤ 7 - 1) ∧
    computeClientSessionKey 7 3 (computeMultiplier wHash 7 3)
      (computeXWithUsername wHash [] [] [])
      (computeScramblingParameter wHash 7
        (computePublicClientValue 7 3 2)
        (computePublicServerValue 7 3 (computeMultiplier wHash 7 3)
          (computeVerifier 7 3 (computeXWithUsername wHash [] [] [])) 3))
      2
      (computePublicServerValue 7 3 (computeMultiplier wHash 7 3)
        (computeVerifier 7 3 (computeXWithUsername wHash [] [] [])) 3)
    = computeServerSessionKey 7 (computeVerifier 7 3 (computeXWithUsername wHash [] [] []))
        (computeScramblingParameter wHash 7
          (computePublicClientValue 7 3 2)
          (computePublicServerValue 7 3 (computeMultiplier wHash 7 3)
            (computeVerifier 7 3 (computeXWithUsername wHash [] [] [])) 3))
        (computePublicClientValue 7 3 2) 3 :=
  ⟨by decide, by decide,
    claim_C2 7 3 (by norm_num) wHash computeXWithUsername [] [] [] 2 3
      ⟨by decide, by decide⟩ ⟨by decide, by decide⟩⟩

/-! ## State machines (embedded from `client.go`, `server.go`, `verifier.go`)

Sessions are stored under the user identity as a heterogeneous bag
(`map[string]interface{}` in Go).  The error strings are the Go ones, except
that Go quotes field names with single quotes, omitted here.  Every step takes
the backend's responses for this invocation (`BackendIO`) and returns, next to
its Go result, the list of backend calls it issued, in order. -/

/-- The session-state enum (Go `state`: `initial`, `step1`, `step2`). -/
inductive SrpState
  | initial
  | step1
  | step2
deriving DecidableEq

/-- The keys of the session bag (the string keys used by the Go sources). -/
inductive SKey
  | state
  | lastActivity
  | password
  | publicClientValue
  | clientEvidence
  | sessionKey
  | publicServerValue
  | privateServerValue
deriving DecidableEq

/-- The kinds of values the sources store in the bag (`interface{}` values:
a `state`, a `time.Time`, a `*big.Int`, or a `string`). -/
inductive StoredValue
  | vState (s : SrpState)
  | vTime (t : Int)
  | vInt (n : Nat)
  | vBytes (bs : List Nat)
deriving DecidableEq

/-- A stored session record. -/
abbrev SessionMap : Type := List (SKey × StoredValue)

/-- The backend's responses for one step invocation: the result a `Get` would
return, and the errors a `Put` or `Delete` would return. -/
structure BackendIO where
  getRes : Except String SessionMap
  putRes : Option String
  delRes : Option String

/-- A backend call issued by a step. -/
inductive Op
  | get
  | put (m : SessionMap)
  | delete
deriving DecidableEq

/-- `true` for an `error` result, mirroring Go's `err != nil`. -/
def isErr {α : Type} : Except String α → Bool
  | .error _ => true
  | .ok _ => false

/-- `true` if the issued calls contain no `Put` and no `Delete`. -/
def mutationFree (ops : List Op) : Bool :=
  ops.all fun o => match o with | Op.get => true | _ => false

/-- Field read with Go's two failure modes: absent key, wrong dynamic type. -/
def readState (m : SessionMap) : Except String SrpState :=
  match m.lookup SKey.state with
  | none => .error "could not read state from backend"
  | some (StoredValue.vState s) => .ok s
  | some _ => .error "type assertion error for state"

/-- Read `lastActivity` (a `time.Time`). -/
def readLastActivity (m : SessionMap) : Except String Int :=
  match m.lookup SKey.lastActivity with
  | none => .error "could not read lastActivity from backend"
  | some (StoredValue.vTime t) => .ok t
  | some _ => .error "type assertion error for lastActivity"

/-- Read `password` (a Go `string`). -/
def readPassword (m : SessionMap) : Except String (List Nat) :=
  match m.lookup SKey.password with
  | none => .error "could not read password from backend"
  | some (StoredValue.vBytes bs) => .ok bs
  | some _ => .error "type assertion error for password"

/-- Read `publicClientValue` (a `*big.Int`). -/
def readPublicClientValue (m : SessionMap) : Except String Nat :=
  match m.lookup SKey.publicClientValue with
  | none => .error "could not read publicClientValue from backend"
  | some (StoredValue.vInt n) => .ok n
  | some _ => .error "type assertion error for publicClientValue"

/-- Read `clientEvidence` (a `*big.Int`). -/
def readClientEvidence (m : SessionMap) : Except String Nat :=
  match m.lookup SKey.clientEvidence with
  | none => .error "could not read clientEvidence from backend"
  | some (StoredValue.vInt n) => .ok n
  | some _ => .error "type assertion error for clientEvidence"

/-- Read `sessionKey` (a `*big.Int`). -/
def readSessionKey (m : SessionMap) : Except String Nat :=
  match m.lookup SKey.sessionKey with
  | none => .error "could not read sessionKey from backend"
  | some (StoredValue.vInt n) => .ok n
  | some _ => .error "type assertion error for sessionKey"

/-- Read `publicServerValue` (a `*big.Int`). -/
def readPublicServerValue (m : SessionMap) : Except String Nat :=
  match m.lookup SKey.publicServerValue with
  | none => .error "could not read publicServerValue from backend"
  | some (StoredValue.vInt n) => .ok n
  | some _ => .error "type assertion error for publicServerValue"

/-- Read `privateServerValue` (a `*big.Int`). -/
def readPrivateServerValue (m : SessionMap) : Except String Nat :=
  match m.lookup SKey.privateServerValue with
  | none => .error "could not read privateServerValue from backend"
  | some (StoredValue.vInt n) => .ok n
  | some _ => .error "type assertion error for privateServerValue"

/-- The SRP client (Go `Client`): its group, hash, X variant, private-value
generator and timeout; the backend is supplied per call. -/
structure Client where
  prime : Nat
  generator : Nat
  fHash : List Nat → List Nat
  computeX : FuncX
  generatePrivateValue : Nat → Except String Nat
  timeout : Int

/-- The SRP server (Go `Server`), same configuration shape. -/
structure Server where
  prime : Nat
  generator : Nat
  fHash : List Nat → List Nat
  computeX : FuncX
  generatePrivateValue : Nat → Except String Nat
  timeout : Int

/-- The verifier generator (Go `Verifier`). -/
structure Verifier where
  prime : Nat
  generator : Nat
  fHash : List Nat → List Nat
  computeX : FuncX

/-- Go `Client.hasTimedOut`: `false` when no timeout is configured, otherwise
whether `now` is strictly after `lastActivity + timeout`. -/
def Client.hasTimedOut (c : Client) (now lastActivity : Int) : Bool :=
  if c.timeout = 0 then false else decide (lastActivity + c.timeout < now)

/-- Go `Server.hasTimedOut`, identical logic. -/
def Server.hasTimedOut (s : Server) (now lastActivity : Int) : Bool :=
  if s.timeout = 0 then false else decide (lastActivity + s.timeout < now)

/-- Go `Client.Step1`: validate identity and password, then store
`{state: step1, lastActivity: now, password}`.  The `Put` error is discarded
by the source, so the step succeeds regardless of `io.putRes`. -/
def Client.Step1 (c : Client) (userID password : List Nat) (now : Int)
    (io : BackendIO) : Except String Unit × List Op :=
  if userID = [] then (.error "the user identity must not be empty", [])
  else if password = [] then (.error "the user password must not be empty", [])
  else
    (.ok (), [Op.put [(SKey.state, StoredValue.vState SrpState.step1),
                      (SKey.lastActivity, StoredValue.vTime now),
                      (SKey.password, StoredValue.vBytes password)]])

/-- The part of Go `Client.Step2` after the successful backend `Get`:
read the three fields, check state and timeout, then compute
`x, a, A, k, u, S, M1` and the record to store. -/
def Client.Step2Core (c : Client) (userID salt : List Nat) (B : Nat)
    (m : SessionMap) (now : Int) : Except String (Nat × Nat × SessionMap) :=
  match readState m with
  | .error e => .error e
  | .ok st =>
    match readLastActivity m with
    | .error e => .error e
    | .ok la =>
      match readPassword m with
      | .error e => .error e
      | .ok pw =>
        if st ≠ SrpState.step1 then .error "state violation: must be in step1 state"
        else if c.hasTimedOut now la then .error "session timeout"
        else
          match c.generatePrivateValue c.prime with
          | .error e => .error e
          | .ok a =>
            let x := c.computeX c.fHash salt userID pw
            let A := computePublicClientValue c.prime c.generator a
            let k := computeMultiplier c.fHash c.prime c.generator
            let u := computeScramblingParameter c.fHash c.prime A B
            let S := computeClientSessionKey c.prime c.generator k x u a B
            let M1 := computeClientEvidence c.fHash A B S
            .ok (A, M1,
              [(SKey.state, StoredValue.vState SrpState.step2),
               (SKey.lastActivity, StoredValue.vTime now),
               (SKey.publicClientValue, StoredValue.vInt A),
               (SKey.clientEvidence, StoredValue.vInt M1),
               (SKey.sessionKey, StoredValue.vInt S)])

/-- Go `Client.Step2`: validations, backend `Get` (whose error is wrapped and
propagated), the core computation, and on success the `Put` of the new record
(whose error is discarded by the source). -/
def Client.Step2 (c : Client) (userID : List Nat) (salt : Option (List Nat))
    (publicServerValue : Option Nat) (now : Int) (io : BackendIO) :
    Except String (Nat × Nat) × List Op :=
  if userID = [] then (.error "the user identity must not be empty", [])
  else if salt = none then (.error "the salt must not be nil", [])
  else if isValidPublicValue c.prime publicServerValue = false then
    (.error "bad server public value", [])
  else
    match io.getRes with
    | .error e =>
      (.error ("could not get SRP data from backend during step2: " ++ e), [Op.get])
    | .ok m =>
      match Client.Step2Core c userID (salt.getD []) (publicServerValue.getD 0) m now with
      | .error e => (.error e, [Op.get])
      | .ok (A, M1, m2) => (.ok (A, M1), [Op.get, Op.put m2])

/-- The part of Go `Client.Step3` after the successful backend `Get`: read the
five fields, check state and timeout, recompute `M2` and compare. -/
def Client.Step3Core (c : Client) (serverEvidence : Nat) (m : SessionMap)
    (now : Int) : Except String Unit :=
  match readState m with
  | .error e => .error e
  | .ok st =>
    match readLastActivity m with
    | .error e => .error e
    | .ok la =>
      match readPublicClientValue m with
      | .error e => .error e
      | .ok A =>
        match readClientEvidence m with
        | .error e => .error e
        | .ok M1 =>
          match readSessionKey m with
          | .error e => .error e
          | .ok S =>
            if st ≠ SrpState.step2 then .error "state violation: must be in step2 state"
            else if c.hasTimedOut now la then .error "session timeout"
            else if computeServerEvidence c.fHash A M1 S ≠ serverEvidence then
              .error "bad server credentials"
            else .ok ()

/-- Go `Client.Step3`: validations, `Get` (wrapped error propagated), core
check, and on success the session `Delete` (whose error the source discards). -/
def Client.Step3 (c : Client) (userID : List Nat) (serverEvidence : Option Nat)
    (now : Int) (io : BackendIO) : Except String Unit × List Op :=
  if userID = [] then (.error "the user identity must not be empty", [])
  else if serverEvidence = none then
    (.error "the server evidence message must not be nil", [])
  else
    match io.getRes with
    | .error e =>
      (.error ("could not get SRP data from backend during step3: " ++ e), [Op.get])
    | .ok m =>
      match Client.Step3Core c (serverEvidence.getD 0) m now with
      | .error e => (.error e, [Op.get])
      | .ok () => (.ok (), [Op.get, Op.delete])

/-- Go `Server.Step1`: validations, multiplier, private value `b` (generator
errors propagate, before any backend call), `B`, then the `Put` of
`{state: step1, lastActivity, publicServerValue, privateServerValue}` (whose
error the source discards). -/
def Server.Step1 (s : Server) (userID : List Nat) (salt : Option (List Nat))
    (verifier : Option Nat) (now : Int) (io : BackendIO) :
    Except String Nat × List Op :=
  if userID = [] then (.error "the user identity must not be empty", [])
  else if salt = none then (.error "the salt must not be nil", [])
  else if verifier = none then (.error "the verifier must not be nil", [])
  else
    let k := computeMultiplier s.fHash s.prime s.generator
    match s.generatePrivateValue s.prime with
    | .error e => (.error e, [])
    | .ok b =>
      let B := computePublicServerValue s.prime s.generator k (verifier.getD 0) b
      (.ok B, [Op.put [(SKey.state, StoredValue.vState SrpState.step1),
                       (SKey.lastActivity, StoredValue.vTime now),
                       (SKey.publicServerValue, StoredValue.vInt B),
                       (SKey.privateServerValue, StoredValue.vInt b)]])

/-- The part of Go `Server.Step2` after the successful backend `Get`: read the
four fields, check state and timeout, recompute `u`, `S` and `M1`, compare the
client evidence, and produce `M2`.  The salt does not occur in this body. -/
def Server.Step2Core (s : Server) (verifier A M1 : Nat) (m : SessionMap)
    (now : Int) : Except String Nat :=
  match readState m with
  | .error e => .error e
  | .ok st =>
    match readLastActivity m with
    | .error e => .error e
    | .ok la =>
      match readPublicServerValue m with
      | .error e => .error e
      | .ok B =>
        match readPrivateServerValue m with
        | .error e => .error e
        | .ok b =>
          if st ≠ SrpState.step1 then .error "state violation: must be in step1 state"
          else if s.hasTimedOut now la then .error "srp timeout"
          else
            let u := computeScramblingParameter s.fHash s.prime A B
            let S := computeServerSessionKey s.prime verifier u A b
            if computeClientEvidence s.fHash A B S ≠ M1 then
              .error "bad client credentials"
            else
              .ok (computeServerEvidence s.fHash A M1 S)

/-- Go `Server.Step2`: validations (identity, salt, verifier, client
evidence, public client value), `Get` (wrapped error propagated), core
check, and on success the session `Delete` (whose error the source
discards). -/
def Server.Step2 (s : Server) (userID : List Nat) (salt : Option (List Nat))
    (verifier publicClientValue clientEvidence : Option Nat) (now : Int)
    (io : BackendIO) : Except String Nat × List Op :=
  if userID = [] then (.error "the user identity must not be empty", [])
  else if salt = none then (.error "the salt must not be nil", [])
  else if verifier = none then (.error "the verifier must not be nil", [])
  else if clientEvidence = none then
    (.error "the client evidence message must not be nil", [])
  else if isValidPublicValue s.prime publicClientValue = false then
    (.error "bad client public value", [])
  else
    match io.getRes with
    | .error e =>
      (.error ("could not get SRP data from backend during step2: " ++ e), [Op.get])
    | .ok m =>
      match Server.Step2Core s (verifier.getD 0) (publicClientValue.getD 0)
          (clientEvidence.getD 0) m now with
      | .error e => (.error e, [Op.get])
      | .ok m2 => (.ok m2, [Op.get, Op.delete])

/-- Go `Verifier.GenerateVerifier`: `v = g^x mod N` with `x` from the
configured variant. -/
def Verifier.GenerateVerifier (v : Verifier) (salt username password : List Nat) : Nat :=
  computeVerifier v.prime v.generator (v.computeX v.fHash salt username password)

/-- The SRP group record (Go `Group`, with nilable `*big.Int` fields). -/
structure SrpGroup where
  Prime : Option Nat
  Generator : Option Nat

/-- Outcome of running a piece of Go code that may panic. -/
inductive GoResult (α : Type)
  | crash (msg : String)
  | ret (v : α)

/-- Go `ClientGroup` option applied to a client under Go pointer semantics:
the body immediately reads `grp.Prime`, so a nil `*Group` pointer panics;
a non-nil group with a nil field yields a configuration error. -/
def ClientGroup (grp : Option SrpGroup) (c : Client) : GoResult (Except String Client) :=
  match grp with
  | none => GoResult.crash "runtime error: invalid memory address or nil pointer dereference"
  | some g =>
    if g.Prime = none ∨ g.Generator = none then
      GoResult.ret (Except.error "the prime and generator must not be nil")
    else
      GoResult.ret (Except.ok
        { c with prime := g.Prime.getD 0, generator := g.Generator.getD 0 })

/-- Go `ServerGroup` option, same body as `ClientGroup`. -/
def ServerGroup (grp : Option SrpGroup) (s : Server) : GoResult (Except String Server) :=
  match grp with
  | none => GoResult.crash "runtime error: invalid memory address or nil pointer dereference"
  | some g =>
    if g.Prime = none ∨ g.Generator = none then
      GoResult.ret (Except.error "the prime and generator must not be nil")
    else
      GoResult.ret (Except.ok
        { s with prime := g.Prime.getD 0, generator := g.Generator.getD 0 })

/-- Go `VerifierGroup` option, same body as `ClientGroup`. -/
def VerifierGroup (grp : Option SrpGroup) (v : Verifier) : GoResult (Except String Verifier) :=
  match grp with
  | none => GoResult.crash "runtime error: invalid memory address or nil pointer dereference"
  | some g =>
    if g.Prime = none ∨ g.Generator = none then
      GoResult.ret (Except.error "the prime and generator must not be nil")
    else
      GoResult.ret (Except.ok
        { v with prime := g.Prime.getD 0, generator := g.Generator.getD 0 })

/-- The stored record after `Client.Step1`. -/
def clientSession1 (la : Int) (pw : List Nat) : SessionMap :=
  [(SKey.state, StoredValue.vState SrpState.step1),
   (SKey.lastActivity, StoredValue.vTime la),
   (SKey.password, StoredValue.vBytes pw)]

/-- The stored record after `Client.Step2`. -/
def clientSession2 (la : Int) (A M1 S : Nat) : SessionMap :=
  [(SKey.state, StoredValue.vState SrpState.step2),
   (SKey.lastActivity, StoredValue.vTime la),
   (SKey.publicClientValue, StoredValue.vInt A),
   (SKey.clientEvidence, StoredValue.vInt M1),
   (SKey.sessionKey, StoredValue.vInt S)]

/-- The stored record after `Server.Step1`. -/
def serverSession1 (la : Int) (B b : Nat) : SessionMap :=
  [(SKey.state, StoredValue.vState SrpState.step1),
   (SKey.lastActivity, StoredValue.vTime la),
   (SKey.publicServerValue, StoredValue.vInt B),
   (SKey.privateServerValue, StoredValue.vInt b)]

/-! ## Infrastructure lemmas for the step claims -/

/-- Two `error` results with different messages differ. -/
theorem error_ne_of_msg_ne {α : Type} (a b : String) (h : ¬ a = b) :
    (Except.error a : Except String α) ≠ Except.error b := by
  intro hh
  injection hh with h2
  exact h h2

/-- A wrapped backend error (nonempty prefix plus arbitrary message) is never
equal to a fixed shorter message. -/
theorem append_error_ne {α : Type} (p e q : String) (h : q.length < p.length) :
    (Except.error (p ++ e) : Except String α) ≠ Except.error q := by
  intro hh
  injection hh with h2
  have h3 := congrArg String.length h2
  rw [String.length_append] at h3
  omega

/-- The only errors `readState` produces are its two field messages. -/
theorem readState_ne (m : SessionMap) (q : String)
    (h1 : q ≠ "could not read state from backend")
    (h2 : q ≠ "type assertion error for state") : readState m ≠ .error q := by
  unfold readState
  split
  · exact error_ne_of_msg_ne _ _ fun hh => h1 hh.symm
  · simp
  · exact error_ne_of_msg_ne _ _ fun hh => h2 hh.symm

/-- The only errors `readLastActivity` produces are its two field messages. -/
theorem readLastActivity_ne (m : SessionMap) (q : String)
    (h1 : q ≠ "could not read lastActivity from backend")
    (h2 : q ≠ "type assertion error for lastActivity") : readLastActivity m ≠ .error q := by
  unfold readLastActivity
  split
  · exact error_ne_of_msg_ne _ _ fun hh => h1 hh.symm
  · simp
  · exact error_ne_of_msg_ne _ _ fun hh => h2 hh.symm

/-- The only errors `readPassword` produces are its two field messages. -/
theorem readPassword_ne (m : SessionMap) (q : String)
    (h1 : q ≠ "could not read password from backend")
    (h2 : q ≠ "type assertion error for password") : readPassword m ≠ .error q := by
  unfold readPassword
  split
  · exact error_ne_of_msg_ne _ _ fun hh => h1 hh.symm
  · simp
  · exact error_ne_of_msg_ne _ _ fun hh => h2 hh.symm

/-- The only errors `readPublicClientValue` produces are its two field
messages. -/
theorem readPublicClientValue_ne (m : SessionMap) (q : String)
    (h1 : q ≠ "could not read publicClientValue from backend")
    (h2 : q ≠ "type assertion error for publicClientValue") :
    readPublicClientValue m ≠ .error q := by
  unfold readPublicClientValue
  split
  · exact error_ne_of_msg_ne _ _ fun hh => h1 hh.symm
  · simp
  · exact error_ne_of_msg_ne _ _ fun hh => h2 hh.symm

/-- The only errors `readClientEvidence` produces are its two field messages. -/
theorem readClientEvidence_ne (m : SessionMap) (q : String)
    (h1 : q ≠ "could not read clientEvidence from backend")
    (h2 : q ≠ "type assertion error for clientEvidence") :
    readClientEvidence m ≠ .error q := by
  unfold readClientEvidence
  split
  · exact error_ne_of_msg_ne _ _ fun hh => h1 hh.symm
  · simp
  · exact error_ne_of_msg_ne _ _ fun hh => h2 hh.symm

/-- The only errors `readSessionKey` produces are its two field messages. -/
theorem readSessionKey_ne (m : SessionMap) (q : String)
    (h1 : q ≠ "could not read sessionKey from backend")
    (h2 : q ≠ "type assertion error for sessionKey") : readSessionKey m ≠ .error q := by
  unfold readSessionKey
  split
  · exact error_ne_of_msg_ne _ _ fun hh => h1 hh.symm
  · simp
  · exact error_ne_of_msg_ne _ _ fun hh => h2 hh.symm

/-- The only errors `readPublicServerValue` produces are its two field
messages. -/
theorem readPublicServerValue_ne (m : SessionMap) (q : String)
    (h1 : q ≠ "could not read publicServerValue from backend")
    (h2 : q ≠ "type assertion error for publicServerValue") :
    readPublicServerValue m ≠ .error q := by
  unfold readPublicServerValue
  split
  · exact error_ne_of_msg_ne _ _ fun hh => h1 hh.symm
  · simp
  · exact error_ne_of_msg_ne _ _ fun hh => h2 hh.symm

/-- The only errors `readPrivateServerValue` produces are its two field
messages. -/
theorem readPrivateServerValue_ne (m : SessionMap) (q : String)
    (h1 : q ≠ "could not read privateServerValue from backend")
    (h2 : q ≠ "type assertion error for privateServerValue") :
    readPrivateServerValue m ≠ .error q := by
  unfold readPrivateServerValue
  split
  · exact error_ne_of_msg_ne _ _ fun hh => h1 hh.symm
  · simp
  · exact error_ne_of_msg_ne _ _ fun hh => h2 hh.symm

/-- On a well-formed step1 client record, `Client.Step2Core` reduces to the
timeout check, the private-value generation and the computation; no further
condition (in particular none on the scrambling parameter) is checked. -/
theorem clientStep2Core_char (c : Client) (userID salt : List Nat) (B : Nat)
    (la : Int) (pw : List Nat) (now : Int) :
    Client.Step2Core c userID salt B (clientSession1 la pw) now =
      (if c.hasTimedOut now la then .error "session timeout"
       else
         match c.generatePrivateValue c.prime with
         | .error e => .error e
         | .ok a =>
           .ok (computePublicClientValue c.prime c.generator a,
             computeClientEvidence c.fHash (computePublicClientValue c.prime c.generator a) B
               (computeClientSessionKey c.prime c.generator
                 (computeMultiplier c.fHash c.prime c.generator)
                 (c.computeX c.fHash salt userID pw)
                 (computeScramblingParameter c.fHash c.prime
                   (computePublicClientValue c.prime c.generator a) B)
                 a B),
             [(SKey.state, StoredValue.vState SrpState.step2),
              (SKey.lastActivity, StoredValue.vTime now),
              (SKey.publicClientValue,
                StoredValue.vInt (computePublicClientValue c.prime c.generator a)),
              (SKey.clientEvidence,
                StoredValue.vInt (computeClientEvidence c.fHash
                  (computePublicClientValue c.prime c.generator a) B
                  (computeClientSessionKey c.prime c.generator
                    (computeMultiplier c.fHash c.prime c.generator)
                    (c.computeX c.fHash salt userID pw)
                    (computeScramblingParameter c.fHash c.prime
                      (computePublicClientValue c.prime c.generator a) B)
                    a B))),
              (SKey.sessionKey,
                StoredValue.vInt (computeClientSessionKey c.prime c.generator
                  (computeMultiplier c.fHash c.prime c.generator)
                  (c.computeX c.fHash salt userID pw)
                  (computeScramblingParameter c.fHash c.prime
                    (computePublicClientValue c.prime c.generator a) B)
                  a B))])) := by
  simp only [Client.Step2Core, clientSession1, readState, readLastActivity, readPassword,
    List.lookup]
  rfl

/-- On a well-formed step2 client record, `Client.Step3Core` reduces to the
timeout check and the evidence comparison. -/
theorem clientStep3Core_char (c : Client) (m2 : Nat) (la : Int) (A M1 S : Nat)
    (now : Int) :
    Client.Step3Core c m2 (clientSession2 la A M1 S) now =
      (if c.hasTimedOut now la then .error "session timeout"
       else if computeServerEvidence c.fHash A M1 S ≠ m2 then
         .error "bad server credentials"
       else .ok ()) := by
  simp only [Client.Step3Core, clientSession2, readState, readLastActivity,
    readPublicClientValue, readClientEvidence, readSessionKey, List.lookup]
  rfl

/-- On a well-formed step1 server record, `Server.Step2Core` reduces to the
timeout check, the evidence comparison and the `M2` computation; no further
condition (in particular none on the scrambling parameter) is checked. -/
theorem serverStep2Core_char (s : Server) (vv A M1 : Nat) (la : Int) (B b : Nat)
    (now : Int) :
    Server.Step2Core s vv A M1 (serverSession1 la B b) now =
      (if s.hasTimedOut now la then .error "srp timeout"
       else if computeClientEvidence s.fHash A B
           (computeServerSessionKey s.prime vv
             (computeScramblingParameter s.fHash s.prime A B) A b) ≠ M1 then
         .error "bad client credentials"
       else
         .ok (computeServerEvidence s.fHash A M1
           (computeServerSessionKey s.prime vv
             (computeScramblingParameter s.fHash s.prime A B) A b))) := by
  simp only [Server.Step2Core, serverSession1, readState, readLastActivity,
    readPublicServerValue, readPrivateServerValue, List.lookup]
  rfl

/-- Reduction of `Client.Step2` under passed validations and a successful
`Get`. -/
theorem clientStep2_reduce (c : Client) (uid ss : List Nat) (B : Option Nat)
    (now : Int) (io : BackendIO) (m : SessionMap) (hu : uid ≠ [])
    (hB : isValidPublicValue c.prime B = true) (hio : io.getRes = .ok m) :
    Client.Step2 c uid (some ss) B now io =
      (match Client.Step2Core c uid ss (B.getD 0) m now with
       | .error e => (.error e, [Op.get])
       | .ok (A, M1, m2) => (.ok (A, M1), [Op.get, Op.put m2])) := by
  unfold Client.Step2
  have h1 : ¬ ((some ss : Option (List Nat)) = none) := by simp
  have h2 : ¬ (isValidPublicValue c.prime B = false) := by simp [hB]
  rw [if_neg hu, if_neg h1, if_neg h2, hio]
  rfl

/-- Reduction of `Client.Step3` under passed validations and a successful
`Get`. -/
theorem clientStep3_reduce (c : Client) (uid : List Nat) (m2v : Nat)
    (now : Int) (io : BackendIO) (m : SessionMap) (hu : uid ≠ [])
    (hio : io.getRes = .ok m) :
    Client.Step3 c uid (some m2v) now io =
      (match Client.Step3Core c m2v m now with
       | .error e => (.error e, [Op.get])
       | .ok () => (.ok (), [Op.get, Op.delete])) := by
  unfold Client.Step3
  have h1 : ¬ ((some m2v : Option Nat) = none) := by simp
  rw [if_neg hu, if_neg h1, hio]
  rfl

/-- Reduction of `Server.Step2` under passed validations and a successful
`Get`. -/
theorem serverStep2_reduce (s : Server) (uid ss : List Nat) (vv m1v : Nat)
    (A : Option Nat) (now : Int) (io : BackendIO) (m : SessionMap) (hu : uid ≠ [])
    (hA : isValidPublicValue s.prime A = true) (hio : io.getRes = .ok m) :
    Server.Step2 s uid (some ss) (some vv) A (some m1v) now io =
      (match Server.Step2Core s vv (A.getD 0) m1v m now with
       | .error e => (.error e, [Op.get])
       | .ok m2 => (.ok m2, [Op.get, Op.delete])) := by
  unfold Server.Step2
  have h1 : ¬ ((some ss : Option (List Nat)) = none) := by simp
  have h2 : ¬ ((some vv : Option Nat) = none) := by simp
  have h3 : ¬ ((some m1v : Option Nat) = none) := by simp
  have h4 : ¬ (isValidPublicValue s.prime A = false) := by simp [hA]
  rw [if_neg hu, if_neg h1, if_neg h2, if_neg h3, if_neg h4, hio]
  rfl

/-- With timeout `0` and a private-value generator that never reports the
timeout message, `Client.Step2Core` never fails with the timeout error. -/
theorem clientStep2Core_ne_timeout (c : Client) (hc : c.timeout = 0)
    (hg : ∀ n, c.generatePrivateValue n ≠ Except.error "session timeout")
    (userID salt : List Nat) (B : Nat) (m : SessionMap) (now : Int) :
    Client.Step2Core c userID salt B m now ≠ Except.error "session timeout" := by
  unfold Client.Step2Core
  split
  · next e heq =>
    intro hh
    injection hh with h3
    subst h3
    exact readState_ne m _ (by decide) (by decide) heq
  · next st heq =>
    split
    · next e heq2 =>
      intro hh
      injection hh with h3
      subst h3
      exact readLastActivity_ne m _ (by decide) (by decide) heq2
    · next la heq2 =>
      split
      · next e heq3 =>
        intro hh
        injection hh with h3
        subst h3
        exact readPassword_ne m _ (by decide) (by decide) heq3
      · next pw heq3 =>
        split
        · exact error_ne_of_msg_ne _ _ (by decide)
        · split
          · next hcond => exact absurd hcond (by simp [Client.hasTimedOut, hc])
          · next hcond =>
            split
            · next e heq4 =>
              intro hh
              injection hh with h3
              subst h3
              exact hg c.prime heq4
            · next a heq4 => simp

/-- With timeout `0`, `Client.Step3Core` never fails with the timeout error. -/
theorem clientStep3Core_ne_timeout (c : Client) (hc : c.timeout = 0)
    (m2v : Nat) (m : SessionMap) (now : Int) :
    Client.Step3Core c m2v m now ≠ Except.error "session timeout" := by
  unfold Client.Step3Core
  split
  · next e heq =>
    intro hh
    injection hh with h3
    subst h3
    exact readState_ne m _ (by decide) (by decide) heq
  · next st heq =>
    split
    · next e heq2 =>
      intro hh
      injection hh with h3
      subst h3
      exact readLastActivity_ne m _ (by decide) (by decide) heq2
    · next la heq2 =>
      split
      · next e heq3 =>
        intro hh
        injection hh with h3
        subst h3
        exact readPublicClientValue_ne m _ (by decide) (by decide) heq3
      · next A heq3 =>
        split
        · next e heq4 =>
          intro hh
          injection hh with h3
          subst h3
          exact readClientEvidence_ne m _ (by decide) (by decide) heq4
        · next M1 heq4 =>
          split
          · next e heq5 =>
            intro hh
            injection hh with h3
            subst h3
            exact readSessionKey_ne m _ (by decide) (by decide) heq5
          · next S heq5 =>
            split
            · exact error_ne_of_msg_ne _ _ (by decide)
            · split
              · next hcond => exact absurd hcond (by simp [Client.hasTimedOut, hc])
              · next hcond =>
                split
                · exact error_ne_of_msg_ne _ _ (by decide)
                · simp

/-- With timeout `0`, `Server.Step2Core` never fails with the timeout error. -/
theorem serverStep2Core_ne_timeout (s : Server) (hs : s.timeout = 0)
    (vv A m1v : Nat) (m : SessionMap) (now : Int) :
    Server.Step2Core s vv A m1v m now ≠ Except.error "srp timeout" := by
  unfold Server.Step2Core
  split
  · next e heq =>
    intro hh
    injection hh with h3
    subst h3
    exact readState_ne m _ (by decide) (by decide) heq
  · next st heq =>
    split
    · next e heq2 =>
      intro hh
      injection hh with h3
      subst h3
      exact readLastActivity_ne m _ (by decide) (by decide) heq2
    · next la heq2 =>
      split
      · next e heq3 =>
        intro hh
        injection hh with h3
        subst h3
        exact readPublicServerValue_ne m _ (by decide) (by decide) heq3
      · next B heq3 =>
        split
        · next e heq4 =>
          intro hh
          injection hh with h3
          subst h3
          exact readPrivateServerValue_ne m _ (by decide) (by decide) heq4
        · next b heq4 =>
          split
          · exact error_ne_of_msg_ne _ _ (by decide)
          · split
            · next hcond => exact absurd hcond (by simp [Server.hasTimedOut, hs])
            · next hcond =>
              dsimp only
              split
              · exact error_ne_of_msg_ne _ _ (by decide)
              · simp

/-! ## Claims C7 – C10 -/

/-- Claim C7: with timeout configured to 0 (the default), no session ever
times out: `hasTimedOut` is constantly false on both `Client` and `Server`,
and `Client.Step2`, `Client.Step3` and `Server.Step2` never fail with their
timeout errors.  For `Client.Step2` the injectable private-value generator is
assumed not to use the exact timeout message for its own failures. -/
theorem claim_C7 (c : Client) (s : Server) (now la : Int) (uid : List Nat)
    (salt : Option (List Nat)) (B v A M1 M2 : Option Nat) (io : BackendIO) :
    (c.timeout = 0 → c.hasTimedOut now la = false) ∧
    (s.timeout = 0 → s.hasTimedOut now la = false) ∧
    (c.timeout = 0 → (∀ n, c.generatePrivateValue n ≠ Except.error "session timeout") →
      (Client.Step2 c uid salt B now io).fst ≠ Except.error "session timeout") ∧
    (c.timeout = 0 → (Client.Step3 c uid M2 now io).fst ≠ Except.error "session timeout") ∧
    (s.timeout = 0 → (Server.Step2 s uid salt v A M1 now io).fst ≠ Except.error "srp timeout") := by
  refine ⟨?_, ?_, ?_, ?_, ?_⟩
  · intro h
    simp [Client.hasTimedOut, h]
  · intro h
    simp [Server.hasTimedOut, h]
  · intro hc hg
    unfold Client.Step2
    split
    · exact error_ne_of_msg_ne _ _ (by decide)
    · split
      · exact error_ne_of_msg_ne _ _ (by decide)
      · split
        · exact error_ne_of_msg_ne _ _ (by decide)
        · split
          · exact append_error_ne _ _ _ (by decide)
          · next m heq =>
            split
            · next e heq2 =>
              intro hh
              injection hh with h3
              subst h3
              exact clientStep2Core_ne_timeout c hc hg _ _ _ _ _ heq2
            · simp
  · intro hc
    unfold Client.Step3
    split
    · exact error_ne_of_msg_ne _ _ (by decide)
    · split
      · exact error_ne_of_msg_ne _ _ (by decide)
      · split
        · exact append_error_ne _ _ _ (by decide)
        · next m heq =>
          split
          · next e heq2 =>
            intro hh
            injection hh with h3
            subst h3
            exact clientStep3Core_ne_timeout c hc _ _ _ heq2
          · simp
  · intro hs
    unfold Server.Step2
    split
    · exact error_ne_of_msg_ne _ _ (by decide)
    · split
      · exact error_ne_of_msg_ne _ _ (by decide)
      · split
        · exact error_ne_of_msg_ne _ _ (by decide)
        · split
          · exact error_ne_of_msg_ne _ _ (by decide)
          · split
            · exact error_ne_of_msg_ne _ _ (by decide)
            · split
              · exact append_error_ne _ _ _ (by decide)
              · next m heq =>
                split
                · next e heq2 =>
                  intro hh
                  injection hh with h3
                  subst h3
                  exact serverStep2Core_ne_timeout s hs _ _ _ _ _ heq2
                · simp

/-- A concrete client with no timeout, used for witnesses. -/
def cZero : Client :=
  { prime := 7, generator := 3, fHash := wHash, computeX := computeXWithUsername,
    generatePrivateValue := fun _ => Except.ok 2, timeout := 0 }

/-- A concrete server with no timeout, used for witnesses. -/
def sZero : Server :=
  { prime := 7, generator := 3, fHash := wHash, computeX := computeXWithUsername,
    generatePrivateValue := fun _ => Except.ok 2, timeout := 0 }

/-- A backend whose `Get` fails. -/
def ioNoSession : BackendIO :=
  { getRes := Except.error "key not found", putRes := none, delRes := none }

/-- Witness for claim C7: the no-timeout client and server at a very old
last-activity time. -/
theorem claim_C7_witness :
    cZero.hasTimedOut 1000000 0 = false ∧
    sZero.hasTimedOut 1000000 0 = false ∧
    (Client.Step2 cZero [97] (some []) (some 1) 1000000 ioNoSession).fst ≠
      Except.error "session timeout" ∧
    (Client.Step3 cZero [97] (some 1) 1000000 ioNoSession).fst ≠
      Except.error "session timeout" ∧
    (Server.Step2 sZero [97] (some []) (some 2) (some 3) (some 1) 1000000 ioNoSession).fst ≠
      Except.error "srp timeout" := by
  have h := claim_C7 cZero sZero 1000000 0 [97] (some []) (some 1) (some 2) (some 3)
    (some 1) (some 1) ioNoSession
  exact ⟨h.1 rfl, h.2.1 rfl,
    h.2.2.1 rfl (fun n hh => by simp [cZero] at hh),
    h.2.2.2.1 rfl, h.2.2.2.2 rfl⟩

/-- Claim C8: the salt argument of `Server.Step2` does not influence its
result: for any two non-nil salts and otherwise identical arguments, backend
and configuration, the step returns the same evidence and error outcome, and
issues the same backend calls. -/
theorem claim_C8 (s : Server) (uid s1 s2 : List Nat) (v A M1 : Option Nat)
    (now : Int) (io : BackendIO) :
    Server.Step2 s uid (some s1) v A M1 now io =
      Server.Step2 s uid (some s2) v A M1 now io := rfl

/-- Claim C9: a nil `*Group` passed to the `ClientGroup`, `ServerGroup` or
`VerifierGroup` option dereferences nil and panics instead of returning a
configuration error; only the `Prime`/`Generator` fields of a non-nil group
are checked (a non-nil group with nil fields yields the configuration
error). -/
theorem claim_C9 (c : Client) (s : Server) (v : Verifier) :
    ClientGroup none c =
      GoResult.crash "runtime error: invalid memory address or nil pointer dereference" ∧
    ServerGroup none s =
      GoResult.crash "runtime error: invalid memory address or nil pointer dereference" ∧
    VerifierGroup none v =
      GoResult.crash "runtime error: invalid memory address or nil pointer dereference" ∧
    ClientGroup (some { Prime := none, Generator := none }) c =
      GoResult.ret (Except.error "the prime and generator must not be nil") ∧
    ServerGroup (some { Prime := none, Generator := none }) s =
      GoResult.ret (Except.error "the prime and generator must not be nil") ∧
    VerifierGroup (some { Prime := none, Generator := none }) v =
      GoResult.ret (Except.error "the prime and generator must not be nil") :=
  ⟨rfl, rfl, rfl, rfl, rfl, rfl⟩

/-- Claim C10: for configured timeout `t > 0` a session times out exactly
when the current time is strictly after `lastActivity + t`; at the boundary
(current time equal to `lastActivity + t`) `hasTimedOut` is false on both
`Client` and `Server`, and a `Client.Step3` call at the boundary is not
rejected with the timeout error. -/
theorem claim_C10 (t la now : Int) (ht : 0 < t) (c : Client) (s : Server)
    (hc : c.timeout = t) (hs : s.timeout = t) :
    (c.hasTimedOut now la = true ↔ la + t < now) ∧
    c.hasTimedOut (la + t) la = false ∧
    (s.hasTimedOut now la = true ↔ la + t < now) ∧
    s.hasTimedOut (la + t) la = false ∧
    (∀ (uid : List Nat) (m2v Av M1v Sv : Nat) (io : BackendIO),
      uid ≠ [] → io.getRes = Except.ok (clientSession2 la Av M1v Sv) →
      (Client.Step3 c uid (some m2v) (la + t) io).fst ≠
        Except.error "session timeout") := by
  have hne : ¬ (t = 0) := by omega
  refine ⟨?_, ?_, ?_, ?_, ?_⟩
  · simp [Client.hasTimedOut, hc, hne]
  · simp [Client.hasTimedOut, hc, hne]
  · simp [Server.hasTimedOut, hs, hne]
  · simp [Server.hasTimedOut, hs, hne]
  · intro uid m2v Av M1v Sv io hu hio
    rw [clientStep3_reduce c uid m2v (la + t) io (clientSession2 la Av M1v Sv) hu hio]
    rw [clientStep3Core_char]
    have hto : c.hasTimedOut (la + t) la = false := by
      simp [Client.hasTimedOut, hc, hne]
    rw [hto, if_neg (show ¬ (false = true) by simp)]
    by_cases hev : computeServerEvidence c.fHash Av M1v Sv ≠ m2v
    · rw [if_pos hev]
      exact error_ne_of_msg_ne _ _ (by decide)
    · rw [if_neg hev]
      simp

/-- A concrete client with timeout 5. -/
def cFive : Client :=
  { prime := 7, generator := 3, fHash := wHash, computeX := computeXWithUsername,
    generatePrivateValue := fun _ => Except.ok 2, timeout := 5 }

/-- A concrete server with timeout 5. -/
def sFive : Server :=
  { prime := 7, generator := 3, fHash := wHash, computeX := computeXWithUsername,
    generatePrivateValue := fun _ => Except.ok 2, timeout := 5 }

/-- Witness for claim C10, at `t = 5`, `lastActivity = 0`, `now = 7`. -/
theorem claim_C10_witness :
    (0 : Int) < 5 ∧
    ((cFive.hasTimedOut 7 0 = true ↔ (0 : Int) + 5 < 7) ∧
      cFive.hasTimedOut ((0 : Int) + 5) 0 = false ∧
      (sFive.hasTimedOut 7 0 = true ↔ (0 : Int) + 5 < 7) ∧
      sFive.hasTimedOut ((0 : Int) + 5) 0 = false ∧
      (∀ (uid : List Nat) (m2v Av M1v Sv : Nat) (io : BackendIO),
        uid ≠ [] → io.getRes = Except.ok (clientSession2 0 Av M1v Sv) →
        (Client.Step3 cFive uid (some m2v) ((0 : Int) + 5) io).fst ≠
          Except.error "session timeout")) :=
  ⟨by decide, claim_C10 5 0 7 (by decide) cFive sFive rfl rfl⟩

/-! ## Claims C3 – C6 -/

/-- A backend whose `Put` and `Delete` report errors. -/
def ioPutFail : BackendIO :=
  { getRes := Except.error "key not found", putRes := some "backend put failure",
    delRes := some "backend delete failure" }

/-- A second backend with the same `Get` result but different `Put`/`Delete`
outcomes. -/
def ioPutFail2 : BackendIO :=
  { getRes := Except.error "key not found", putRes := none, delRes := none }

/-- Counterexample to claim C3 as stated: the backend reports a `Put` failure
during `Client.Step1`, yet the step returns success — the source discards the
`Put` error, so not every backend failure is propagated. -/
theorem claim_C3_counterexample :
    (Client.Step1 cZero [97] [98] 0 ioPutFail).fst = Except.ok () ∧
    (Client.Step1 cZero [97] [98] 0 ioPutFail).snd = [Op.put (clientSession1 0 [98])] ∧
    ioPutFail.putRes = some "backend put failure" := ⟨rfl, rfl, rfl⟩

/-- Claim C3 (amended): only backend `Get` failures are propagated — each of
`Client.Step2`, `Client.Step3` and `Server.Step2` returns an error whenever
`Get` fails; the `Put` and `Delete` outcomes are ignored by every step, whose
results depend on the backend only through the `Get` result. -/
theorem claim_C3 (c : Client) (s : Server) (uid pw : List Nat)
    (salt : Option (List Nat)) (B v A M1 M2 : Option Nat) (now : Int)
    (io io2 : BackendIO) (e : String) :
    (io.getRes = Except.error e → isErr (Client.Step2 c uid salt B now io).fst = true) ∧
    (io.getRes = Except.error e → isErr (Client.Step3 c uid M2 now io).fst = true) ∧
    (io.getRes = Except.error e → isErr (Server.Step2 s uid salt v A M1 now io).fst = true) ∧
    (io.getRes = io2.getRes →
      Client.Step1 c uid pw now io = Client.Step1 c uid pw now io2 ∧
      Client.Step2 c uid salt B now io = Client.Step2 c uid salt B now io2 ∧
      Client.Step3 c uid M2 now io = Client.Step3 c uid M2 now io2 ∧
      Server.Step1 s uid salt v now io = Server.Step1 s uid salt v now io2 ∧
      Server.Step2 s uid salt v A M1 now io = Server.Step2 s uid salt v A M1 now io2) := by
  refine ⟨?_, ?_, ?_, ?_⟩
  · intro h
    unfold Client.Step2
    split
    · rfl
    · split
      · rfl
      · split
        · rfl
        · rw [h]
          rfl
  · intro h
    unfold Client.Step3
    split
    · rfl
    · split
      · rfl
      · rw [h]
        rfl
  · intro h
    unfold Server.Step2
    split
    · rfl
    · split
      · rfl
      · split
        · rfl
        · split
          · rfl
          · split
            · rfl
            · rw [h]
              rfl
  · intro h
    cases io with
    | mk g p d =>
      cases io2 with
      | mk g2 p2 d2 =>
        simp only at h
        subst h
        exact ⟨rfl, rfl, rfl, rfl, rfl⟩

/-- Witness for claim C3 (amended): a failing `Get` makes `Client.Step2`
fail, and `Client.Step1` is unaffected by `Put`/`Delete` outcomes. -/
theorem claim_C3_witness :
    isErr (Client.Step2 cZero [97] (some []) (some 1) 0 ioPutFail).fst = true ∧
    Client.Step1 cZero [97] [98] 0 ioPutFail = Client.Step1 cZero [97] [98] 0 ioPutFail2 := by
  have h := claim_C3 cZero sZero [97] [98] (some []) (some 1) (some 2) (some 3) (some 1)
    (some 1) 0 ioPutFail ioPutFail2 "key not found"
  exact ⟨h.1 rfl, (h.2.2.2 rfl).1⟩

/-- Claim C4: a failing step never mutates the stored session.  Whenever
`Client.Step2`, `Client.Step3` or `Server.Step2` returns an error, the backend
calls it issued contain no `Put` and no `Delete`; in particular `Server.Step2`
on a mismatched client evidence returns the authentication error and only
issues the `Get`, and `Client.Step3` on a mismatched server evidence likewise
does not delete the session. -/
theorem claim_C4 (c : Client) (s : Server) (uid ss : List Nat)
    (salt : Option (List Nat)) (B v A M1 M2 : Option Nat) (now la : Int)
    (io : BackendIO) (Av Bv bv Sv vv av m1v M1v m2v : Nat) :
    (isErr (Client.Step2 c uid salt B now io).fst = true →
      mutationFree (Client.Step2 c uid salt B now io).snd = true) ∧
    (isErr (Client.Step3 c uid M2 now io).fst = true →
      mutationFree (Client.Step3 c uid M2 now io).snd = true) ∧
    (isErr (Server.Step2 s uid salt v A M1 now io).fst = true →
      mutationFree (Server.Step2 s uid salt v A M1 now io).snd = true) ∧
    (uid ≠ [] → av % s.prime ≠ 0 → io.getRes = Except.ok (serverSession1 la Bv bv) →
      s.hasTimedOut now la = false →
      computeClientEvidence s.fHash av Bv
          (computeServerSessionKey s.prime vv
            (computeScramblingParameter s.fHash s.prime av Bv) av bv) ≠ m1v →
      Server.Step2 s uid (some ss) (some vv) (some av) (some m1v) now io =
        (Except.error "bad client credentials", [Op.get])) ∧
    (uid ≠ [] → io.getRes = Except.ok (clientSession2 la Av M1v Sv) →
      c.hasTimedOut now la = false →
      computeServerEvidence c.fHash Av M1v Sv ≠ m2v →
      Client.Step3 c uid (some m2v) now io =
        (Except.error "bad server credentials", [Op.get])) := by
  refine ⟨?_, ?_, ?_, ?_, ?_⟩
  · unfold Client.Step2
    split
    · intro _
      rfl
    · split
      · intro _
        rfl
      · split
        · intro _
          rfl
        · split
          · intro _
            rfl
          · split
            · intro _
              rfl
            · intro h
              simp [isErr] at h
  · unfold Client.Step3
    split
    · intro _
      rfl
    · split
      · intro _
        rfl
      · split
        · intro _
          rfl
        · split
          · intro _
            rfl
          · intro h
            simp [isErr] at h
  · unfold Server.Step2
    split
    · intro _
      rfl
    · split
      · intro _
        rfl
      · split
        · intro _
          rfl
        · split
          · intro _
            rfl
          · split
            · intro _
              rfl
            · split
              · intro _
                rfl
              · split
                · intro _
                  rfl
                · intro h
                  simp [isErr] at h
  · intro hu hA hio hto hm
    rw [serverStep2_reduce s uid ss vv m1v (some av) now io (serverSession1 la Bv bv) hu
      (by simp [isValidPublicValue, hA]) hio]
    simp only [Option.getD_some]
    rw [serverStep2Core_char, hto, if_neg (show ¬ (false = true) by simp), if_pos hm]
  · intro hu hio hto hm
    rw [clientStep3_reduce c uid m2v now io (clientSession2 la Av M1v Sv) hu hio]
    rw [clientStep3Core_char, hto, if_neg (show ¬ (false = true) by simp), if_pos hm]

/-- A backend holding the concrete server step1 record. -/
def ioSrv : BackendIO :=
  { getRes := Except.ok (serverSession1 0 4 2), putRes := none, delRes := none }

/-- A backend holding the concrete client step2 record. -/
def ioCli2 : BackendIO :=
  { getRes := Except.ok (clientSession2 0 3 1 2), putRes := none, delRes := none }

/-- Witness for claim C4: an erroring `Client.Step2` issues no mutation, and
the two evidence-mismatch branches return the authentication errors with only
the `Get` issued. -/
theorem claim_C4_witness :
    mutationFree (Client.Step2 cZero [] (some []) (some 1) 0 ioPutFail).snd = true ∧
    Server.Step2 sZero [97] (some []) (some 2) (some 3) (some 5) 0 ioSrv =
      (Except.error "bad client credentials", [Op.get]) ∧
    Client.Step3 cZero [97] (some 5) 0 ioCli2 =
      (Except.error "bad server credentials", [Op.get]) := by
  have h1 := claim_C4 cZero sZero [] [] (some []) (some 1) (some 2) (some 3) (some 1)
    (some 1) 0 0 ioPutFail 3 4 2 2 2 3 5 1 5
  have h2 := claim_C4 cZero sZero [97] [] (some []) (some 1) (some 2) (some 3) (some 1)
    (some 1) 0 0 ioSrv 3 4 2 2 2 3 5 1 5
  have h3 := claim_C4 cZero sZero [97] [] (some []) (some 1) (some 2) (some 3) (some 1)
    (some 1) 0 0 ioCli2 3 4 2 2 2 3 5 1 5
  exact ⟨h1.1 rfl, h2.2.2.2.1 (by decide) (by decide) rfl rfl (by decide),
    h3.2.2.2.2 (by decide) rfl rfl (by decide)⟩

/-- A constant zero hash: every digest is the single byte 0, so every hash
output read as an integer is 0 — in particular the scrambling parameter. -/
def zHash : List Nat → List Nat := fun _ => [0]

/-- A server configured with the zero hash. -/
def sZeroHash : Server :=
  { prime := 7, generator := 3, fHash := zHash, computeX := computeXWithUsername,
    generatePrivateValue := fun _ => Except.ok 2, timeout := 0 }

/-- A client configured with the zero hash. -/
def cZeroHash : Client :=
  { prime := 7, generator := 3, fHash := zHash, computeX := computeXWithUsername,
    generatePrivateValue := fun _ => Except.ok 2, timeout := 0 }

/-- A backend holding a server step1 record for the zero-hash run. -/
def ioSrvZ : BackendIO :=
  { getRes := Except.ok (serverSession1 0 4 2), putRes := none, delRes := none }

/-- A backend holding a client step1 record for the zero-hash run. -/
def ioCliZ : BackendIO :=
  { getRes := Except.ok (clientSession1 0 [98]), putRes := none, delRes := none }

/-- Counterexample to claim C5 as stated: an execution of `Server.Step2` in
which the computed scrambling parameter is 0, yet the step succeeds instead of
failing — the sources contain no `u = 0` check. -/
theorem claim_C5_counterexample :
    computeScramblingParameter zHash 7 3 4 = 0 ∧
    (Server.Step2 sZeroHash [97] (some []) (some 2) (some 3) (some 0) 0 ioSrvZ).fst =
      Except.ok 0 := ⟨rfl, rfl⟩

/-- Claim C5 (amended): neither `Client.Step2` nor `Server.Step2` checks the
computed scrambling parameter: whenever identity, public value, record state
and timeout pass (and, for the server, the evidence matches), the step
computes the session key and succeeds with whatever `u` the hash yields —
including `u = 0`.  No hypothesis on `u` appears. -/
theorem claim_C5 (c : Client) (s : Server) (uid ss pw : List Nat) (la now : Int)
    (a vv av m1v Bv bv : Nat) (io : BackendIO) :
    (uid ≠ [] → av % s.prime ≠ 0 → io.getRes = Except.ok (serverSession1 la Bv bv) →
      s.hasTimedOut now la = false →
      m1v = computeClientEvidence s.fHash av Bv
          (computeServerSessionKey s.prime vv
            (computeScramblingParameter s.fHash s.prime av Bv) av bv) →
      Server.Step2 s uid (some ss) (some vv) (some av) (some m1v) now io =
        (Except.ok (computeServerEvidence s.fHash av m1v
            (computeServerSessionKey s.prime vv
              (computeScramblingParameter s.fHash s.prime av Bv) av bv)),
         [Op.get, Op.delete])) ∧
    (uid ≠ [] → Bv % c.prime ≠ 0 → io.getRes = Except.ok (clientSession1 la pw) →
      c.hasTimedOut now la = false →
      c.generatePrivateValue c.prime = Except.ok a →
      Client.Step2 c uid (some ss) (some Bv) now io =
        (Except.ok (computePublicClientValue c.prime c.generator a,
            computeClientEvidence c.fHash (computePublicClientValue c.prime c.generator a) Bv
              (computeClientSessionKey c.prime c.generator
                (computeMultiplier c.fHash c.prime c.generator)
                (c.computeX c.fHash ss uid pw)
                (computeScramblingParameter c.fHash c.prime
                  (computePublicClientValue c.prime c.generator a) Bv)
                a Bv)),
         [Op.get, Op.put (clientSession2 now (computePublicClientValue c.prime c.generator a)
            (computeClientEvidence c.fHash (computePublicClientValue c.prime c.generator a) Bv
              (computeClientSessionKey c.prime c.generator
                (computeMultiplier c.fHash c.prime c.generator)
                (c.computeX c.fHash ss uid pw)
                (computeScramblingParameter c.fHash c.prime
                  (computePublicClientValue c.prime c.generator a) Bv)
                a Bv))
            (computeClientSessionKey c.prime c.generator
              (computeMultiplier c.fHash c.prime c.generator)
              (c.computeX c.fHash ss uid pw)
              (computeScramblingParameter c.fHash c.prime
                (computePublicClientValue c.prime c.generator a) Bv)
              a Bv))])) := by
  constructor
  · intro hu hA hio hto hm
    rw [serverStep2_reduce s uid ss vv m1v (some av) now io (serverSession1 la Bv bv) hu
      (by simp [isValidPublicValue, hA]) hio]
    simp only [Option.getD_some]
    rw [serverStep2Core_char, hto, if_neg (show ¬ (false = true) by simp),
      if_neg (not_not_intro hm.symm)]
  · intro hu hB hio hto hg
    rw [clientStep2_reduce c uid ss (some Bv) now io (clientSession1 la pw) hu
      (by simp [isValidPublicValue, hB]) hio]
    simp only [Option.getD_some]
    rw [clientStep2Core_char, hto, if_neg (show ¬ (false = true) by simp), hg]
    rfl

/-- Witness for claim C5 (amended), at the zero hash where the computed
scrambling parameter is 0 on both sides: both steps nevertheless succeed. -/
theorem claim_C5_witness :
    computeScramblingParameter zHash 7 3 4 = 0 ∧
    Server.Step2 sZeroHash [97] (some []) (some 2) (some 3) (some 0) 0 ioSrvZ =
      (Except.ok (computeServerEvidence zHash 3 0
          (computeServerSessionKey 7 2 (computeScramblingParameter zHash 7 3 4) 3 2)),
       [Op.get, Op.delete]) ∧
    Client.Step2 cZeroHash [97] (some []) (some 3) 0 ioCliZ =
      (Except.ok (computePublicClientValue 7 3 2,
          computeClientEvidence zHash (computePublicClientValue 7 3 2) 3
            (computeClientSessionKey 7 3 (computeMultiplier zHash 7 3)
              (computeXWithUsername zHash [] [97] [98])
              (computeScramblingParameter zHash 7 (computePublicClientValue 7 3 2) 3)
              2 3)),
       [Op.get, Op.put (clientSession2 0 (computePublicClientValue 7 3 2)
          (computeClientEvidence zHash (computePublicClientValue 7 3 2) 3
            (computeClientSessionKey 7 3 (computeMultiplier zHash 7 3)
              (computeXWithUsername zHash [] [97] [98])
              (computeScramblingParameter zHash 7 (computePublicClientValue 7 3 2) 3)
              2 3))
          (computeClientSessionKey 7 3 (computeMultiplier zHash 7 3)
            (computeXWithUsername zHash [] [97] [98])
            (computeScramblingParameter zHash 7 (computePublicClientValue 7 3 2) 3)
            2 3))]) := by
  have h := claim_C5 cZeroHash sZeroHash [97] [] [98] 0 0 2 2 3 0 4 2 ioSrvZ
  have h2 := claim_C5 cZeroHash sZeroHash [97] [] [98] 0 0 2 2 3 0 3 2 ioCliZ
  exact ⟨rfl, h.1 (by decide) (by decide) rfl rfl (by decide),
    h2.2 (by decide) (by decide) rfl rfl rfl⟩

/-- Claim C6: `isValidPublicValue N X` is true exactly when `X mod N ≠ 0`
(and false on nil); consequently `Client.Step2` rejects a public server value
with `B mod N = 0` and `Server.Step2` rejects a public client value with
`A mod N = 0` before reading the session from the backend — the result is the
validation error and no backend call at all is issued. -/
theorem claim_C6 (N X : Nat) (hN : Nat.Prime N) (c : Client) (s : Server)
    (uid ss : List Nat) (B v A M1 : Option Nat) (now : Int) (io : BackendIO) :
    (isValidPublicValue N (some X) = true ↔ X % N ≠ 0) ∧
    isValidPublicValue N none = false ∧
    (uid ≠ [] → isValidPublicValue c.prime B = false →
      Client.Step2 c uid (some ss) B now io = (Except.error "bad server public value", [])) ∧
    (uid ≠ [] → v ≠ none → M1 ≠ none → isValidPublicValue s.prime A = false →
      Server.Step2 s uid (some ss) v A M1 now io =
        (Except.error "bad client public value", [])) := by
  refine ⟨by simp [isValidPublicValue], rfl, ?_, ?_⟩
  · intro hu hB
    unfold Client.Step2
    rw [if_neg hu, if_neg (show ¬ ((some ss : Option (List Nat)) = none) by simp),
      if_pos hB]
  · intro hu hv hM1 hA
    unfold Server.Step2
    rw [if_neg hu, if_neg (show ¬ ((some ss : Option (List Nat)) = none) by simp),
      if_neg hv, if_neg hM1, if_pos hA]

/-- Witness for claim C6 at `N = 7`, `X = 3`, with `B = 0` and `A = 7`
(`7 mod 7 = 0`). -/
theorem claim_C6_witness :
    (isValidPublicValue 7 (some 3) = true ↔ 3 % 7 ≠ 0) ∧
    Client.Step2 cZero [97] (some []) (some 0) 0 ioNoSession =
      (Except.error "bad server public value", []) ∧
    Server.Step2 sZero [97] (some []) (some 2) (some 7) (some 1) 0 ioNoSession =
      (Except.error "bad client public value", []) := by
  have h := claim_C6 7 3 (by norm_num) cZero sZero [97] [] (some 0) (some 2) (some 7)
    (some 1) 0 ioNoSession
  exact ⟨h.1, h.2.2.1 (by decide) (by decide),
    h.2.2.2 (by decide) (by simp) (by simp) (by decide)⟩
